import Mathlib

/-!
Shallow embedding of the Minecraft-Bot-Joiner bot lifecycle manager:
the username generator (`shared/schema.ts` part `nameGenerator`), the
`MinecraftBotService` state machine, the `MemStorage` in-memory store
(`server/storage.ts`) and the HTTP route glue (`routes`, the unnamed
server file).  JavaScript `Math.random()` is modelled as an explicit
stream of rationals in `[0,1)`; JS timers (`setTimeout`/`setInterval`
handles) are modelled as pending-flags on the owning service, and timer
firings / mineflayer session events are explicit actions of a small-step
world semantics.  `mineflayer.createBot` returns its handle
synchronously (connection failures surface later as `error` events), so
the session handle is modelled as created by `start` itself.
-/

namespace MBJ

/-! ### Log events emitted by a bot service -/

inductive Level where
  | debug
  | info
  | warn
  | error
deriving DecidableEq, Repr

structure LogMsg where
  level : Level
  message : String
deriving DecidableEq, Repr

def levelStr : Level → String
  | .debug => "debug"
  | .info => "info"
  | .warn => "warn"
  | .error => "error"

/-! ### Data model (`shared/schema.ts`) -/

structure BotConfig where
  id : Nat
  username : String
  serverIp : String
  serverPort : Int
  autoReconnect : Bool
  reconnectInterval : Int
  maxReconnectAttempts : Int
  logLevel : String
  wanderEnabled : Bool
  chatEnabled : Bool
  useRandomNames : Bool
  isActive : Bool
deriving DecidableEq, Repr, Inhabited

/-- `InsertBotConfig`: every column has a default in the drizzle schema, so
every field of the zod insert schema is optional; `none` models an absent key. -/
structure InsertBotConfig where
  username : Option String := none
  serverIp : Option String := none
  serverPort : Option Int := none
  autoReconnect : Option Bool := none
  reconnectInterval : Option Int := none
  maxReconnectAttempts : Option Int := none
  logLevel : Option String := none
  wanderEnabled : Option Bool := none
  chatEnabled : Option Bool := none
  useRandomNames : Option Bool := none
  isActive : Option Bool := none
deriving DecidableEq, Repr

/-! ### Username generator (`nameGenerator`, schema.ts lines 62-133)

`Math.random()` draws are consumed left-to-right from a `List ℚ`
(defaulting to `0` when exhausted; real draws lie in `[0,1)`). -/

def firstNames : List String :=
  ["Alex", "Steve", "Luna", "Max", "Emma", "Jake", "Zoe", "Noah", "Lily", "Sam",
   "Kai", "Maya", "Leo", "Aria", "Finn", "Nora", "Cole", "Ruby", "Jack", "Ivy",
   "Owen", "Mia", "Liam", "Eva", "Luke", "Sky", "Ryan", "Sage", "Dean", "Rose",
   "Blake", "Jade", "Gray", "Belle", "Cruz", "Wren", "Knox", "Faye", "Jude", "Vale"]

def suffixes : List String :=
  ["Gaming", "Pro", "Master", "Craft", "Build", "Mine", "Player", "Hero",
   "2024", "99", "101", "X", "Z", "MC", "YT", "TTV", "Live", "Stream",
   "Builder", "Miner", "Crafter", "Legend", "King", "Queen", "Boss", "Elite",
   "Gamer", "Noob", "Newbie", "Rookie", "Veteran", "Expert", "Ninja", "Wizard"]

def adjectives : List String :=
  ["Cool", "Epic", "Awesome", "Super", "Mega", "Ultra", "Shadow", "Dark",
   "Light", "Fire", "Ice", "Storm", "Thunder", "Swift", "Silent", "Wild",
   "Brave", "Bold", "Lucky", "Smart", "Quick", "Strong", "Mystic", "Golden",
   "Silver", "Diamond", "Emerald", "Ruby", "Crystal", "Neon", "Cyber", "Digital"]

/-- One `Math.random()` call: head of the draw stream (0 when exhausted). -/
def nextR (rs : List ℚ) : ℚ × List ℚ := (rs.headD 0, rs.tail)

/-- `Math.floor(r * n)` clamped to `Nat` (for `r ∈ [0,1)` this is `< n`),
computed on the exact rational: `⌊r·n⌋ = (r.num · n) div r.den` with
flooring integer division (`jsFloorIdx_eq_floor` below proves the
agreement with `Int.floor`). -/
def jsFloorIdx (r : ℚ) (n : Nat) : Nat := ((r.num * (n : Int)) / (r.den : Int)).toNat

/-- `list[Math.floor(Math.random() * list.length)]`. -/
def pickName (l : List String) (r : ℚ) : String := l.getD (jsFloorIdx r l.length) ""

/-- The 10%-chance decoration step (`username += ['_','X','Z'][...]`). -/
def decorate (u : String) (rs : List ℚ) : String × List ℚ :=
  let r := (nextR rs).1
  let rs1 := (nextR rs).2
  if r < mkRat 1 10 then -- Math.random() < 0.1
    let r2 := (nextR rs1).1
    let rs2 := (nextR rs1).2
    (u ++ (["_", "X", "Z"].getD (jsFloorIdx r2 3) ""), rs2)
  else (u, rs1)

/-- One loop iteration's candidate name (before the length/collision check). -/
def genCandidate (rs : List ℚ) : String × List ℚ :=
  let nameType := (nextR rs).1
  let rs1 := (nextR rs).2
  let r1 := (nextR rs1).1
  let rs2 := (nextR rs1).2
  let r2 := (nextR rs2).1
  let rs3 := (nextR rs2).2
  if nameType < mkRat 2 5 then -- nameType < 0.4
    decorate (pickName firstNames r1 ++ pickName suffixes r2) rs3
  else if nameType < mkRat 7 10 then -- nameType < 0.7
    decorate (pickName adjectives r1 ++ pickName firstNames r2) rs3
  else
    decorate (pickName firstNames r1 ++ Nat.repr (jsFloorIdx r2 9999 + 1)) rs3

/-- JS `Set.add`: a no-op when the element is already present. -/
def setAdd (u : String) (used : List String) : List String :=
  if u ∈ used then used else u :: used

/-- `releaseUsername`: JS `Set.delete`. -/
def releaseUsername (u : String) (used : List String) : List String :=
  used.filter (· ≠ u)

/-- The `while (attempts < maxAttempts)` loop, counted down as fuel;
at fuel 0 the `Player<random5digit>` fallback is added with no collision check. -/
def generateAux : Nat → List String → List ℚ → String × List String × List ℚ
  | 0, used, rs =>
    let fallback := "Player" ++ Nat.repr (jsFloorIdx (nextR rs).1 99999)
    (fallback, setAdd fallback used, (nextR rs).2)
  | n + 1, used, rs =>
    let u := (genCandidate rs).1
    let rs1 := (genCandidate rs).2
    if u.length ≤ 16 ∧ u ∉ used then (u, setAdd u used, rs1)
    else generateAux n used rs1

/-- `generateRandomUsername` with `maxAttempts = 100`; returns the name,
the updated `usedNames` set and the remaining draw stream. -/
def generateRandomUsername (used : List String) (rs : List ℚ) :
    String × List String × List ℚ :=
  generateAux 100 used rs

/-! ### `MinecraftBotService` (schema.ts lines 133-431) -/

/-- The mineflayer bot handle, as far as its creation arguments go. -/
structure SessionHandle where
  host : String
  port : Int
  username : String
deriving DecidableEq, Repr

structure ServiceState where
  bot : Option SessionHandle
  config : BotConfig
  reconnectAttempts : Nat
  startTime : Option Nat
  reconnectTimeout : Bool
  wanderInterval : Bool
  chatInterval : Bool
  actualUsername : String
  isWandering : Bool
deriving DecidableEq, Repr

/-- The constructor `new MinecraftBotService(config)`. -/
def newService (config : BotConfig) : ServiceState :=
  { bot := none, config := config, reconnectAttempts := 0, startTime := none,
    reconnectTimeout := false, wanderInterval := false, chatInterval := false,
    actualUsername := "", isWandering := false }

instance : Inhabited ServiceState := ⟨newService default⟩

/-- Result of a service operation: new service state, the shared
`usedNames` set, the remaining random stream, and emitted log events. -/
structure SvcOut where
  svc : ServiceState
  used : List String
  rs : List ℚ
  logs : List LogMsg
deriving Repr

/-- `MinecraftBotService.start()`.  `mineflayer.createBot` returns its
handle synchronously, so the happy path always installs a session handle;
connection failures arrive later as session events. -/
def startSvc (s : ServiceState) (used : List String) (rs : List ℚ) (now : Nat) : SvcOut :=
  if s.bot.isSome then
    { svc := s, used := used, rs := rs, logs := [⟨.warn, "Bot is already running"⟩] }
  else
    let gen :=
      if s.config.useRandomNames then generateRandomUsername used rs
      else (s.config.username, used, rs)
    let name := gen.1
    { svc := { s with
        actualUsername := name,
        bot := some ⟨s.config.serverIp, s.config.serverPort, name⟩,
        startTime := some now },
      used := gen.2.1, rs := gen.2.2,
      logs := [⟨.info, "Starting bot with username: " ++ name⟩,
               ⟨.info, "Connecting to " ++ s.config.serverIp ++ ":" ++ toString s.config.serverPort⟩] }

/-- `MinecraftBotService.stop()`.  Every throw-site inside it
(`removeAllListeners`/`quit`) is wrapped in a `try`/`catch` that logs at
`warn`, so `stop` itself never fails; `quitThrows` says whether the
session close threw. -/
def stopSvc (s : ServiceState) (used : List String) (rs : List ℚ) (quitThrows : Bool) : SvcOut :=
  let s1 := { s with reconnectTimeout := false, wanderInterval := false, chatInterval := false }
  let s2 := if s1.bot.isSome then { s1 with bot := none } else s1
  let logs1 : List LogMsg :=
    if s1.bot.isSome then
      if quitThrows then
        [⟨.info, "Stopping bot..."⟩, ⟨.warn, "Error during bot shutdown: ..."⟩]
      else [⟨.info, "Stopping bot..."⟩]
    else []
  let used1 :=
    if s2.config.useRandomNames ∧ s2.actualUsername ≠ "" then
      releaseUsername s2.actualUsername used
    else used
  { svc := { s2 with
      startTime := none, reconnectAttempts := 0,
      isWandering := false, actualUsername := "" },
    used := used1, rs := rs, logs := logs1 }

/-- `handleDisconnection()`: clears the handle, then either schedules the
reconnect timer (incrementing the counter) or emits the exhaustion log. -/
def handleDisconnection (s : ServiceState) : ServiceState × List LogMsg :=
  let s1 := { s with bot := none }
  if s1.config.autoReconnect ∧ (s1.reconnectAttempts : Int) < s1.config.maxReconnectAttempts then
    ({ s1 with reconnectAttempts := s1.reconnectAttempts + 1, reconnectTimeout := true },
     [⟨.info, "Auto-reconnect enabled. Attempt " ++ toString (s1.reconnectAttempts + 1)
        ++ "/" ++ toString s1.config.maxReconnectAttempts
        ++ " in " ++ toString s1.config.reconnectInterval ++ " seconds"⟩])
  else if (s1.reconnectAttempts : Int) ≥ s1.config.maxReconnectAttempts then
    ({ s1 with reconnectAttempts := 0 },
     [⟨.error, "Max reconnection attempts reached. Bot stopped."⟩])
  else (s1, [])

/-- Listeners are attached from `createBot` until `removeAllListeners`
(run by `handleDisconnection` and `stop`, together with nulling `bot`),
so a session event reaches its handler exactly when `bot` is non-null. -/
def onLogin (s : ServiceState) : ServiceState × List LogMsg :=
  if s.bot.isNone then (s, [])
  else ({ s with reconnectAttempts := 0 },
        [⟨.info, "Bot logged in as " ++ s.actualUsername⟩])

/-- `startAIBehaviors()`: installs the wander/chat intervals per feature flag. -/
def startAIBehaviors (s : ServiceState) : ServiceState × List LogMsg :=
  if s.bot.isNone then (s, [])
  else
    let s1 := if s.config.wanderEnabled then { s with wanderInterval := true } else s
    let l1 : List LogMsg :=
      if s.config.wanderEnabled then [⟨.info, "AI wandering enabled"⟩] else []
    if s1.config.chatEnabled then
      ({ s1 with chatInterval := true }, l1 ++ [⟨.info, "AI chat enabled"⟩])
    else (s1, l1)

def onSpawn (s : ServiceState) : ServiceState × List LogMsg :=
  if s.bot.isNone then (s, [])
  else
    ((startAIBehaviors s).1, ⟨.info, "Bot spawned in the world"⟩ :: (startAIBehaviors s).2)

def onEnd (s : ServiceState) : ServiceState × List LogMsg :=
  if s.bot.isNone then (s, [])
  else
    ((handleDisconnection s).1, ⟨.info, "Bot disconnected"⟩ :: (handleDisconnection s).2)

def onKicked (s : ServiceState) (reason : String) : ServiceState × List LogMsg :=
  if s.bot.isNone then (s, [])
  else
    ((handleDisconnection s).1, ⟨.warn, "Bot was kicked: " ++ reason⟩ :: (handleDisconnection s).2)

/-- The `error` handler; code classification only changes the message text. -/
def onErrorEvt (s : ServiceState) (msg : String) : ServiceState × List LogMsg :=
  if s.bot.isNone then (s, [])
  else
    ((handleDisconnection s).1, ⟨.error, msg⟩ :: (handleDisconnection s).2)

/-- The reconnect `setTimeout` callback firing: consumes the pending timer
and calls `start()` on the same (possibly orphaned) service object. -/
def fireReconnect (s : ServiceState) (used : List String) (rs : List ℚ) (now : Nat) : SvcOut :=
  if s.reconnectTimeout then
    startSvc { s with reconnectTimeout := false } used rs now
  else { svc := s, used := used, rs := rs, logs := [] }

def isConnected (s : ServiceState) : Bool := s.bot.isSome

/-- `BotStatus` as computed by `getStatus()`; the `serverInfo` enrichment
reads live game data from the session and is not modelled (no claim
mentions it). -/
structure BotStatus where
  id : Nat
  connected : Bool
  username : String
  uptime : Nat
  reconnectCount : Nat
  wandering : Bool
deriving DecidableEq, Repr

def getStatus (s : ServiceState) (now : Nat) : BotStatus :=
  { id := s.config.id,
    connected := s.bot.isSome,
    username := if s.actualUsername ≠ "" then s.actualUsername else s.config.username,
    uptime := (match s.startTime with | some t => now - t | none => 0),
    reconnectCount := s.reconnectAttempts,
    wandering := s.isWandering }

/-! ### `MemStorage` (`server/storage.ts`) -/

structure LogEntry where
  id : Nat
  timestamp : Nat
  level : String
  message : String
deriving DecidableEq, Repr

structure InsertLogEntry where
  level : String
  message : String
deriving DecidableEq, Repr

/-- JS `Map` as an insertion-ordered association list. -/
def lookupMap {α : Type} (l : List (Nat × α)) (k : Nat) : Option α :=
  (l.find? (fun p => p.1 = k)).map (·.2)

/-- JS `Map.set`: replace in place when the key exists, else append. -/
def mapSet {α : Type} (l : List (Nat × α)) (k : Nat) (v : α) : List (Nat × α) :=
  if l.any (fun p => p.1 = k) then
    l.map (fun p => if p.1 = k then (k, v) else p)
  else l ++ [(k, v)]

structure MemStorage where
  botConfigs : List (Nat × BotConfig)
  logs : List LogEntry
  currentBotId : Nat
  currentLogId : Nat
deriving DecidableEq, Repr

/-- The seeded default configuration (constructor of `MemStorage`). -/
def cfg1 : BotConfig :=
  { id := 1, username := "MinecraftBot_01", serverIp := "example.com", serverPort := 12345,
    autoReconnect := true, reconnectInterval := 30, maxReconnectAttempts := 10,
    logLevel := "info", wanderEnabled := false, chatEnabled := false,
    useRandomNames := false, isActive := false }

def initialStorage : MemStorage :=
  { botConfigs := [(1, cfg1)], logs := [], currentBotId := 1, currentLogId := 1 }

/-- `getBotConfig(id?)`: a falsy id (0/absent) reads config 1. -/
def getBotConfig (s : MemStorage) (id : Nat) : Option BotConfig :=
  if id ≠ 0 then lookupMap s.botConfigs id else lookupMap s.botConfigs 1

/-- JS `x || d` for numbers: `0` (and absent) falls back to the default. -/
def jsOrInt (v : Option Int) (d : Int) : Int :=
  match v with
  | none => d
  | some n => if n = 0 then d else n

/-- JS `x || d` for strings: the empty string (and absent) falls back. -/
def jsOrStr (v : Option String) (d : String) : String :=
  match v with
  | none => d
  | some s => if s = "" then d else s

/-- JS `x ?? d`: only absent falls back. -/
def jsNullish (v : Option Bool) (d : Bool) : Bool := v.getD d

def createBotConfig (s : MemStorage) (config : InsertBotConfig) : BotConfig × MemStorage :=
  let id := s.currentBotId + 1
  let newConfig : BotConfig :=
    { id := id,
      username := jsOrStr config.username "MinecraftBot",
      serverIp := jsOrStr config.serverIp "example.com",
      serverPort := jsOrInt config.serverPort 12345,
      autoReconnect := jsNullish config.autoReconnect true,
      reconnectInterval := jsOrInt config.reconnectInterval 30,
      maxReconnectAttempts := jsOrInt config.maxReconnectAttempts 10,
      logLevel := jsOrStr config.logLevel "info",
      wanderEnabled := jsNullish config.wanderEnabled false,
      chatEnabled := jsNullish config.chatEnabled false,
      useRandomNames := jsNullish config.useRandomNames false,
      isActive := jsNullish config.isActive false }
  (newConfig, { s with botConfigs := mapSet s.botConfigs id newConfig, currentBotId := id })

/-- The object spread `{...existing, ...config}`: present fields override,
falsy values included; absent fields keep the existing value. -/
def spreadInsert (existing : BotConfig) (c : InsertBotConfig) : BotConfig :=
  { existing with
    username := c.username.getD existing.username,
    serverIp := c.serverIp.getD existing.serverIp,
    serverPort := c.serverPort.getD existing.serverPort,
    autoReconnect := c.autoReconnect.getD existing.autoReconnect,
    reconnectInterval := c.reconnectInterval.getD existing.reconnectInterval,
    maxReconnectAttempts := c.maxReconnectAttempts.getD existing.maxReconnectAttempts,
    logLevel := c.logLevel.getD existing.logLevel,
    wanderEnabled := c.wanderEnabled.getD existing.wanderEnabled,
    chatEnabled := c.chatEnabled.getD existing.chatEnabled,
    useRandomNames := c.useRandomNames.getD existing.useRandomNames,
    isActive := c.isActive.getD existing.isActive }

/-- `updateBotConfig(config, id?)`: `none` when the config is missing
(the code throws `Error('Bot config not found')` there). -/
def updateBotConfig (s : MemStorage) (config : InsertBotConfig) (id : Option Nat) :
    Option (BotConfig × MemStorage) :=
  let configId := match id with
    | some i => if i ≠ 0 then i else 1
    | none => 1
  match lookupMap s.botConfigs configId with
  | some existing =>
    let updated := spreadInsert existing config
    some (updated, { s with botConfigs := mapSet s.botConfigs configId updated })
  | none => none

def updateBotStatus (s : MemStorage) (id : Nat) (isActive : Bool) : MemStorage :=
  match lookupMap s.botConfigs id with
  | some c => { s with botConfigs := mapSet s.botConfigs id { c with isActive := isActive } }
  | none => s

/-- `createLogEntry`: fresh id (`currentLogId++`), timestamp `new Date()`
passed in as `now`; setting a fresh key in a JS `Map` appends, so the
`logs` list is the map's values in insertion order. -/
def createLogEntry (s : MemStorage) (now : Nat) (entry : InsertLogEntry) :
    LogEntry × MemStorage :=
  let id := s.currentLogId
  let e : LogEntry := { id := id, timestamp := now, level := entry.level, message := entry.message }
  (e, { s with logs := s.logs ++ [e], currentLogId := s.currentLogId + 1 })

/-- Stable insertion of one entry into a descending-by-timestamp list:
walks past strictly-greater timestamps, so among equal timestamps the
earlier-inserted (original-order-earlier) element ends up first.  This is
the behaviour of ECMAScript `Array.prototype.sort` (stable since ES2019)
with comparator `(a, b) => b.timestamp - a.timestamp`. -/
def insertByDesc (e : LogEntry) : List LogEntry → List LogEntry
  | [] => [e]
  | f :: rest => if f.timestamp > e.timestamp then f :: insertByDesc e rest else e :: f :: rest

def sortByTimestampDesc (l : List LogEntry) : List LogEntry := l.foldr insertByDesc []

/-- `getLogEntries(limit = 100)`: sort newest-first, keep the first
`limit`, then reverse. -/
def getLogEntries (s : MemStorage) (limit : Nat := 100) : List LogEntry :=
  ((sortByTimestampDesc s.logs).take limit).reverse

def clearLogEntries (s : MemStorage) : MemStorage :=
  { s with logs := [], currentLogId := 1 }

/-! ### Route glue: `botServices` registry + start/stop routes -/

structure Response where
  status : Nat
  message : String
deriving DecidableEq, Repr

/-- The world: storage, the heap of every service object ever created
(JS objects outlive their registry entry: a pending `setTimeout` closure
keeps an orphaned service alive), the `botServices` map as configId →
heap index, the shared `usedNames` set and the random stream. -/
structure World where
  storage : MemStorage
  heap : List ServiceState
  registry : List (Nat × Nat)
  used : List String
  rs : List ℚ
deriving Repr

def heapGet (w : World) (k : Nat) : ServiceState := w.heap.getD k default

/-- Persist emitted service logs through `storage.createLogEntry`
(the `'log'` listener installed by `setupBotServiceEvents`). -/
def persistLogs (s : MemStorage) (now : Nat) (logs : List LogMsg) : MemStorage :=
  logs.foldl (fun st m => (createLogEntry st now ⟨levelStr m.level, m.message⟩).2) s

/-- `POST /api/bot/:id/start`: reject when the config is missing or when a
registered service reports `isConnected()`; otherwise construct a fresh
service, register it (replacing, without tearing down, any previous
entry), then run its `start()`. -/
def routeStart (w : World) (botId : Nat) (now : Nat) : World × Response :=
  match getBotConfig w.storage botId with
  | none => (w, ⟨400, "Bot configuration not found"⟩)
  | some config =>
    let alreadyRunning :=
      match lookupMap w.registry botId with
      | some k => isConnected (heapGet w k)
      | none => false
    if alreadyRunning then (w, ⟨400, "Bot is already running"⟩)
    else
      let svc0 := newService config
      let k := w.heap.length
      let heap1 := w.heap ++ [svc0]
      let registry1 := mapSet w.registry botId k
      let r := startSvc svc0 w.used w.rs now
      let st1 := updateBotStatus (persistLogs w.storage now r.logs) botId true
      ({ storage := st1, heap := heap1.set k r.svc, registry := registry1,
         used := r.used, rs := r.rs },
       ⟨200, "Bot start initiated"⟩)

/-- `POST /api/bot/:id/stop`: 400 when no service is registered; otherwise
stop it, delete the registry entry and clear the active flag.  `stop()`
never throws (all its throw-sites are caught internally), so the route's
force-cleanup `catch` is unreachable and the success path is total. -/
def routeStop (w : World) (botId : Nat) (quitThrows : Bool) (now : Nat) : World × Response :=
  match lookupMap w.registry botId with
  | none => (w, ⟨400, "Bot not found or not running"⟩)
  | some k =>
    let r := stopSvc (heapGet w k) w.used w.rs quitThrows
    let registry1 := w.registry.filter (fun p => p.1 ≠ botId)
    let st1 := updateBotStatus (persistLogs w.storage now r.logs) botId false
    ({ storage := st1, heap := w.heap.set k r.svc, registry := registry1,
       used := r.used, rs := r.rs },
     ⟨200, "Bot stopped"⟩)

/-- External stimuli: HTTP commands, session events delivered to a heap
object, and timer firings. -/
inductive Action where
  | start (botId : Nat)
  | stop (botId : Nat) (quitThrows : Bool)
  | login (k : Nat)
  | spawned (k : Nat)
  | ended (k : Nat)
  | kicked (k : Nat) (reason : String)
  | errored (k : Nat) (msg : String)
  | reconnectFires (k : Nat)

def applyEvt (w : World) (k : Nat) (f : ServiceState → ServiceState × List LogMsg)
    (now : Nat) : World :=
  { w with heap := w.heap.set k (f (heapGet w k)).1,
           storage := persistLogs w.storage now (f (heapGet w k)).2 }

def worldFireReconnect (w : World) (k : Nat) (now : Nat) : World :=
  let r := fireReconnect (heapGet w k) w.used w.rs now
  { w with
    heap := w.heap.set k r.svc, used := r.used, rs := r.rs,
    storage := persistLogs w.storage now r.logs }

def stepW (w : World) (now : Nat) : Action → World
  | .start id => (routeStart w id now).1
  | .stop id q => (routeStop w id q now).1
  | .login k => applyEvt w k onLogin now
  | .spawned k => applyEvt w k onSpawn now
  | .ended k => applyEvt w k onEnd now
  | .kicked k r => applyEvt w k (fun s => onKicked s r) now
  | .errored k m => applyEvt w k (fun s => onErrorEvt s m) now
  | .reconnectFires k => worldFireReconnect w k now

def runW (w : World) : List Action → World
  | [] => w
  | a :: rest => runW (stepW w 0 a) rest

/-- Number of live mineflayer session handles belonging to one configId,
counted across every service object on the heap. -/
def liveSessions (w : World) (configId : Nat) : Nat :=
  (w.heap.filter (fun s => s.config.id = configId ∧ s.bot.isSome)).length

def world0 (st : MemStorage) (rs : List ℚ) : World :=
  { storage := st, heap := [], registry := [], used := [], rs := rs }

/-! ### Concrete scenarios used by individual claims -/

/-- C1 scenario: start, disconnect (schedules the orphan's reconnect
timer), accepted second start, then the orphaned timer fires. -/
def c1World : World :=
  runW (world0 initialStorage []) [.start 1, .ended 0, .start 1, .reconnectFires 0]

/-- C2 scenario: two reconnect cycles (attempt counter = 2) and then the
session's `spawn` event with no preceding `login`. -/
def c2World : World :=
  runW (world0 initialStorage [])
    [.start 1, .ended 0, .reconnectFires 0, .ended 0, .reconnectFires 0, .spawned 0]

def cfgWC : BotConfig := { cfg1 with wanderEnabled := true, chatEnabled := true }

/-- C3 scenario: behaviors running, then the session ends. -/
def c3World : World :=
  runW (world0 { initialStorage with botConfigs := [(1, cfgWC)] } [])
    [.start 1, .login 0, .spawned 0, .ended 0]

def cfgR : BotConfig := { cfg1 with useRandomNames := true }

/-- C4 draw stream: first start picks AlexGaming; after reconnect the
first template draw collides with the held AlexGaming, the second yields
SteveGaming (draw 1/40 indexes Steve). -/
def c4rs : List ℚ := [0, 0, 0, mkRat 1 2, 0, 0, 0, mkRat 1 2, 0, mkRat 1 40, 0, mkRat 1 2]

def c4World1 : World :=
  runW (world0 { initialStorage with botConfigs := [(1, cfgR)] } c4rs) [.start 1]

def c4World2 : World := runW c4World1 [.ended 0, .reconnectFires 0]

/-- C5 witness world: one registered running instance. -/
def c5World : World := runW (world0 initialStorage []) [.start 1]

/-- C9 witness world: one registered instance whose session was just
created (no login/spawn processed yet). -/
def c9World : World := runW (world0 initialStorage []) [.start 1]

/-- C6 streams: the first allocation draws AlexGaming; the bad stream
re-draws AlexGaming on all 100 attempts and then draws 0 for the
fallback, producing Player0 twice in a row. -/
def c6rsA : List ℚ := [0, 0, 0, mkRat 1 2]

def c6rsBad : List ℚ := (List.replicate 100 ([0, 0, 0, mkRat 1 2])).flatten ++ [0]

def c6call1 : String × List String × List ℚ := generateRandomUsername [] c6rsA

def c6call2 : String × List String × List ℚ := generateRandomUsername c6call1.2.1 c6rsBad

def c6call3 : String × List String × List ℚ := generateRandomUsername c6call2.2.1 c6rsBad

/-- C7 scenario: two log entries created back-to-back with the same
timestamp (millisecond clocks tie easily). -/
def c7store : MemStorage :=
  (createLogEntry (createLogEntry initialStorage 5 ⟨"info", "first"⟩).2 5
    ⟨"info", "second"⟩).2

/-- C7 witness store: strictly increasing timestamps. -/
def c7storeInc : MemStorage :=
  (createLogEntry (createLogEntry initialStorage 1 ⟨"info", "first"⟩).2 2
    ⟨"info", "second"⟩).2

/-- C10 scenario: updating the seeded config with a literal serverPort 0. -/
def c10store : MemStorage :=
  match updateBotConfig initialStorage { serverPort := some 0 } (some 1) with
  | some (_, st) => st
  | none => initialStorage

/-- A connected service state (concrete witness input). -/
def svcLive : ServiceState :=
  { newService cfg1 with
    bot := some ⟨"example.com", 12345, "MinecraftBot_01"⟩ }

/-- A connected random-name service holding the allocation "AlexGaming". -/
def svcRand : ServiceState :=
  { newService cfgR with
    bot := some ⟨"example.com", 12345, "AlexGaming"⟩, actualUsername := "AlexGaming" }

/-- A service whose attempt counter has reached the maximum. -/
def svcExhausted : ServiceState :=
  { newService cfg1 with reconnectAttempts := 10 }

/-- A disconnected service with a pending reconnect timer. -/
def svcPending : ServiceState :=
  { newService cfg1 with reconnectTimeout := true }

/-- `BoundedDraws rs`: every stream element is a legal `Math.random()`
value, i.e. lies in `[0,1)`. -/
def BoundedDraws (rs : List ℚ) : Prop := ∀ q ∈ rs, 0 ≤ q ∧ q < 1

/-! ### Supporting lemmas -/

/-- The integer-division form of `jsFloorIdx` agrees with `Int.floor`. -/
theorem jsFloorIdx_eq_floor (r : ℚ) (n : Nat) :
    jsFloorIdx r n = (⌊r * (n : ℚ)⌋).toNat := by
  have h : r * (n : ℚ) = ((r.num * (n : Int) : Int) : ℚ) / ((r.den : Nat) : ℚ) := by
    conv_lhs => rw [← Rat.num_div_den r]
    push_cast
    ring
  rw [jsFloorIdx, h, Rat.floor_intCast_div_natCast]

theorem boundedDraws_head (rs : List ℚ) (h : BoundedDraws rs) :
    0 ≤ (nextR rs).1 ∧ (nextR rs).1 < 1 := by
  cases rs with
  | nil => constructor <;> norm_num [nextR]
  | cons a t => exact h a (List.mem_cons_self a t)

theorem boundedDraws_tail (rs : List ℚ) (h : BoundedDraws rs) :
    BoundedDraws (nextR rs).2 := by
  cases rs with
  | nil => intro q hq; simp [nextR] at hq
  | cons a t =>
    intro q hq
    exact h q (List.mem_cons_of_mem a (by simpa [nextR] using hq))

theorem boundedDraws_decorate (u : String) (rs : List ℚ) (h : BoundedDraws rs) :
    BoundedDraws (decorate u rs).2 := by
  unfold decorate
  dsimp only
  split
  · exact boundedDraws_tail _ (boundedDraws_tail _ h)
  · exact boundedDraws_tail _ h

theorem boundedDraws_genCandidate (rs : List ℚ) (h : BoundedDraws rs) :
    BoundedDraws (genCandidate rs).2 := by
  unfold genCandidate
  dsimp only
  have h3 := boundedDraws_tail _ (boundedDraws_tail _ (boundedDraws_tail _ h))
  split
  · exact boundedDraws_decorate _ _ h3
  · split
    · exact boundedDraws_decorate _ _ h3
    · exact boundedDraws_decorate _ _ h3

/-- The fallback name stays within 16 characters: the random factor is
below 1, so the 5-digit number is below 99999. -/
theorem fallback_length_le (r : ℚ) (h0 : 0 ≤ r) (h1 : r < 1) :
    ("Player" ++ Nat.repr (jsFloorIdx r 99999)).length ≤ 16 := by
  have hnum0 : 0 ≤ r.num := Rat.num_nonneg.mpr h0
  have hden : (0 : Int) < (r.den : Int) := by exact_mod_cast r.pos
  have hnlt : r.num < (r.den : Int) := Rat.lt_one_iff_num_lt_denom.mp h1
  have hlt : jsFloorIdx r 99999 < 100000 := by
    have hdivlt : (r.num * (((99999 : Nat)) : Int)) / (r.den : Int) < 99999 := by
      have hc : (((99999 : Nat)) : Int) = 99999 := by norm_num
      rw [hc, Int.ediv_lt_iff_lt_mul hden]
      calc r.num * (99999 : Int) < (r.den : Int) * 99999 :=
            mul_lt_mul_of_pos_right hnlt (by norm_num)
        _ = 99999 * (r.den : Int) := by ring
    unfold jsFloorIdx
    omega
  have hrepr : (Nat.repr (jsFloorIdx r 99999)).length ≤ 5 :=
    Nat.repr_length _ 5 (by norm_num) (by simpa using hlt)
  have hp : ("Player" ++ Nat.repr (jsFloorIdx r 99999)).length
      = 6 + (Nat.repr (jsFloorIdx r 99999)).length := by
    simp [String.length_append, show "Player".length = 6 from rfl]
  omega

theorem generateAux_length_le (fuel : Nat) (used : List String) (rs : List ℚ)
    (h : BoundedDraws rs) : (generateAux fuel used rs).1.length ≤ 16 := by
  induction fuel generalizing used rs with
  | zero =>
    have hb := boundedDraws_head rs h
    exact fallback_length_le _ hb.1 hb.2
  | succ n ih =>
    unfold generateAux
    dsimp only
    split
    · next hcond => exact hcond.1
    · exact ih used _ (boundedDraws_genCandidate rs h)

theorem mem_setAdd (u : String) (used : List String) : u ∈ setAdd u used := by
  unfold setAdd
  split
  · assumption
  · exact List.mem_cons_self u used

theorem generateAux_mem (fuel : Nat) (used : List String) (rs : List ℚ) :
    (generateAux fuel used rs).1 ∈ (generateAux fuel used rs).2.1 := by
  induction fuel generalizing used rs with
  | zero => exact mem_setAdd _ _
  | succ n ih =>
    unfold generateAux
    dsimp only
    split
    · exact mem_setAdd _ _
    · exact ih used _

theorem lookupMap_filter_ne {α : Type} (l : List (Nat × α)) (id : Nat) :
    lookupMap (l.filter (fun p => p.1 ≠ id)) id = none := by
  induction l with
  | nil => rfl
  | cons a t ih =>
    by_cases ha : a.1 = id
    · simp [List.filter_cons, ha, decide_not] at ih ⊢
      exact ih
    · simp [List.filter_cons, ha, lookupMap, List.find?_cons, decide_not] at ih ⊢
      try exact ih

theorem insertByDesc_append (e : LogEntry) (m : List LogEntry)
    (h : ∀ x ∈ m, e.timestamp < x.timestamp) : insertByDesc e m = m ++ [e] := by
  induction m with
  | nil => rfl
  | cons f rest ih =>
    have hf : f.timestamp > e.timestamp := h f (List.mem_cons_self f rest)
    simp [insertByDesc, hf, ih (fun x hx => h x (List.mem_cons_of_mem f hx))]

theorem sortByTimestampDesc_sorted (l : List LogEntry)
    (h : l.Pairwise (fun a b => a.timestamp < b.timestamp)) :
    sortByTimestampDesc l = l.reverse := by
  induction l with
  | nil => rfl
  | cons a t ih =>
    rw [List.pairwise_cons] at h
    have hstep : sortByTimestampDesc (a :: t) = insertByDesc a (sortByTimestampDesc t) := rfl
    rw [hstep, ih h.2, insertByDesc_append]
    · simp
    · intro x hx
      exact h.1 x (by simpa using hx)

/-! ### Claim theorems -/

/-- C1: the claimed invariant "at most one live Session handle per
configId" fails on the code.  After start(1), a disconnect that schedules
the orphan's reconnect timer, a second accepted start(1) (accepted
because `isConnected()` is false while the timer pends), and the orphaned
timer firing, two live mineflayer session handles exist for configId 1:
the route replaces the registry entry without tearing the old service
down, and the old service's timer recreates a session. -/
theorem c1_double_session : liveSessions c1World 1 = 2 ∧ ¬ liveSessions c1World 1 ≤ 1 := by
  decide

/-- C2 counterexample: the reconnect-attempt counter is not reset by the
session's `spawned` event.  In a reachable state with counter 2, the
spawn event leaves it at 2 (the code resets it in the `login` handler
instead). -/
theorem c2_spawn_does_not_reset :
    (heapGet c2World 0).bot.isSome = true ∧
    (heapGet c2World 0).reconnectAttempts = 2 ∧
    ¬ (heapGet c2World 0).reconnectAttempts = 0 := by
  decide

/-- C2 amended: the counter increments by exactly 1 on each
Disconnected-to-Reconnecting transition, is reset to 0 by the session's
`login` event (which precedes `spawned`) rather than by `spawned`, and
once the counter has reached `maxReconnectAttempts` the next
disconnection schedules no reconnect, clears the handle, resets the
counter to 0, and emits exactly one error-level exhaustion log. -/
theorem c2_amended (s : ServiceState) :
    (s.config.autoReconnect = true →
      (s.reconnectAttempts : Int) < s.config.maxReconnectAttempts →
      (handleDisconnection s).1.reconnectAttempts = s.reconnectAttempts + 1 ∧
      (handleDisconnection s).1.reconnectTimeout = true) ∧
    (s.bot.isSome = true → (onLogin s).1.reconnectAttempts = 0) ∧
    ((s.reconnectAttempts : Int) ≥ s.config.maxReconnectAttempts →
      (handleDisconnection s).1.bot = none ∧
      (handleDisconnection s).1.reconnectTimeout = s.reconnectTimeout ∧
      (handleDisconnection s).1.reconnectAttempts = 0 ∧
      (handleDisconnection s).2 =
        [⟨Level.error, "Max reconnection attempts reached. Bot stopped."⟩]) := by
  refine ⟨?_, ?_, ?_⟩
  · intro ha hlt
    simp [handleDisconnection, ha, hlt]
  · intro hb
    cases hbot : s.bot with
    | none => rw [hbot] at hb; simp at hb
    | some h => simp [onLogin, hbot]
  · intro hge
    have hnlt : ¬ ((s.reconnectAttempts : Int) < s.config.maxReconnectAttempts) :=
      not_lt.mpr hge
    simp [handleDisconnection, hnlt, hge]

theorem c2_amended_witness :
    ((handleDisconnection svcLive).1.reconnectAttempts = svcLive.reconnectAttempts + 1 ∧
     (handleDisconnection svcLive).1.reconnectTimeout = true) ∧
    (onLogin svcLive).1.reconnectAttempts = 0 ∧
    ((handleDisconnection svcExhausted).1.bot = none ∧
     (handleDisconnection svcExhausted).1.reconnectTimeout = svcExhausted.reconnectTimeout ∧
     (handleDisconnection svcExhausted).1.reconnectAttempts = 0 ∧
     (handleDisconnection svcExhausted).2 =
       [⟨Level.error, "Max reconnection attempts reached. Bot stopped."⟩]) :=
  ⟨(c2_amended svcLive).1 (by decide) (by decide),
   (c2_amended svcLive).2.1 (by decide),
   (c2_amended svcExhausted).2.2 (by decide)⟩

/-- C3 counterexample: after behaviors are running and the session ends,
the wander and chat interval timers are still pending (the disconnect
handler does not cancel them), although the session handle is cleared. -/
theorem c3_timers_survive_disconnect :
    (heapGet c3World 0).bot = none ∧
    (heapGet c3World 0).wanderInterval = true ∧
    (heapGet c3World 0).chatInterval = true := by
  decide

/-- C3 amended: an `end` event clears the session handle immediately but
leaves the wander/chat timers exactly as they were; those timers are
cancelled only by `stop()` (which also cancels the reconnect timer). -/
theorem c3_amended (s : ServiceState) (used : List String) (rs : List ℚ) (q : Bool) :
    (onEnd s).1.bot = none ∧
    (onEnd s).1.wanderInterval = s.wanderInterval ∧
    (onEnd s).1.chatInterval = s.chatInterval ∧
    (stopSvc s used rs q).svc.wanderInterval = false ∧
    (stopSvc s used rs q).svc.chatInterval = false ∧
    (stopSvc s used rs q).svc.reconnectTimeout = false := by
  have hd : (handleDisconnection s).1.bot = none ∧
      (handleDisconnection s).1.wanderInterval = s.wanderInterval ∧
      (handleDisconnection s).1.chatInterval = s.chatInterval := by
    unfold handleDisconnection
    dsimp only
    split
    · simp
    · split <;> simp
  have hstop : (stopSvc s used rs q).svc.wanderInterval = false ∧
      (stopSvc s used rs q).svc.chatInterval = false ∧
      (stopSvc s used rs q).svc.reconnectTimeout = false := by
    simp only [stopSvc]
    split <;> simp
  have hend : (onEnd s).1.bot = none ∧
      (onEnd s).1.wanderInterval = s.wanderInterval ∧
      (onEnd s).1.chatInterval = s.chatInterval := by
    simp only [onEnd]
    split
    · next hnone => exact ⟨Option.isNone_iff_eq_none.mp hnone, rfl, rfl⟩
    · exact hd
  exact ⟨hend.1, hend.2.1, hend.2.2, hstop.1, hstop.2.1, hstop.2.2⟩

/-- C4 counterexample: with useRandomNames enabled, the reconnect fired
by the orphaned timer re-resolves the username, producing a different
effective username (SteveGaming) than the previous connection attempt
(AlexGaming). -/
theorem c4_random_reconnect_new_name :
    (heapGet c4World1 0).bot = some ⟨"example.com", 12345, "AlexGaming"⟩ ∧
    (heapGet c4World2 0).bot = some ⟨"example.com", 12345, "SteveGaming"⟩ ∧
    ("SteveGaming" : String) ≠ "AlexGaming" := by
  decide

/-- C4 amended: a reconnect re-resolves the username from the current
configuration, so the same effective username is reused exactly when
`useRandomNames` is false; with `useRandomNames` true a fresh random name
is generated for each reconnect. -/
theorem c4_amended (s : ServiceState) (used : List String) (rs : List ℚ) (now : Nat)
    (ht : s.reconnectTimeout = true) (hb : s.bot = none)
    (hr : s.config.useRandomNames = false) :
    (fireReconnect s used rs now).svc.bot =
      some ⟨s.config.serverIp, s.config.serverPort, s.config.username⟩ ∧
    (fireReconnect s used rs now).svc.actualUsername = s.config.username := by
  simp [fireReconnect, startSvc, ht, hb, hr]

theorem c4_amended_witness :
    (fireReconnect svcPending [] [] 0).svc.bot =
      some ⟨svcPending.config.serverIp, svcPending.config.serverPort,
        svcPending.config.username⟩ ∧
    (fireReconnect svcPending [] [] 0).svc.actualUsername = svcPending.config.username :=
  c4_amended svcPending [] [] 0 (by decide) (by decide) (by decide)

/-- C5 counterexample: stop(id) with no registered instance is not a
no-op success; the route answers HTTP 400 "Bot not found or not
running". -/
theorem c5_stop_unregistered_is_error :
    (routeStop (world0 initialStorage []) 1 false 0).2.status = 400 ∧
    (routeStop (world0 initialStorage []) 1 false 0).2.message =
      "Bot not found or not running" := by
  decide

/-- C5 amended: stop(id) with no registered instance is rejected with a
400 error; with a registered instance the route always removes it from
the registry and reports success, regardless of whether closing the
session threw (stop() swallows teardown errors internally). -/
theorem c5_amended (w : World) (botId k : Nat) (q : Bool) (now : Nat)
    (h : lookupMap w.registry botId = some k) :
    (routeStop w botId q now).2 = ⟨200, "Bot stopped"⟩ ∧
    lookupMap (routeStop w botId q now).1.registry botId = none := by
  unfold routeStop
  rw [h]
  exact ⟨rfl, lookupMap_filter_ne _ _⟩

theorem c5_amended_witness :
    (routeStop c5World 1 true 0).2 = ⟨200, "Bot stopped"⟩ ∧
    lookupMap (routeStop c5World 1 true 0).1.registry 1 = none :=
  c5_amended c5World 1 0 true 0 (by decide)

/-- C6 counterexample: three allocations with no release are not pairwise
distinct.  The first returns AlexGaming; the second and third exhaust all
100 attempts (every candidate collides with the held AlexGaming) and both
fall back to Player0, which is added without any uniqueness check — the
third call returns a name already held by the second. -/
theorem c6_fallback_not_unique :
    c6call1.1 = "AlexGaming" ∧
    c6call2.1 = "Player0" ∧
    c6call3.1 = "Player0" ∧
    c6call3.1 = c6call2.1 ∧
    c6call2.1 ∈ c6call2.2.1 := by
  decide

/-- C6 amended: every allocated name (template or fallback) is at most 16
characters when the random draws lie in [0,1); every allocation records
its name in the held set; and a later allocation whose name is fresh
(which the template path guarantees by construction, but the fallback
does not) differs from every previously held name — in particular from
the earlier allocation's name.  Pairwise distinctness of the fallback is
not guaranteed. -/
theorem c6_amended (used : List String) (rs rs2 : List ℚ)
    (h : BoundedDraws rs) (h2 : BoundedDraws rs2) :
    (generateRandomUsername used rs).1.length ≤ 16 ∧
    (generateRandomUsername (generateRandomUsername used rs).2.1 rs2).1.length ≤ 16 ∧
    (generateRandomUsername used rs).1 ∈ (generateRandomUsername used rs).2.1 ∧
    ((generateRandomUsername (generateRandomUsername used rs).2.1 rs2).1 ∉
        (generateRandomUsername used rs).2.1 →
      (generateRandomUsername (generateRandomUsername used rs).2.1 rs2).1 ≠
        (generateRandomUsername used rs).1) := by
  refine ⟨generateAux_length_le 100 used rs h,
    generateAux_length_le 100 _ rs2 h2,
    generateAux_mem 100 used rs, ?_⟩
  intro hfresh heq
  exact hfresh (heq ▸ generateAux_mem 100 used rs)

set_option maxRecDepth 10000 in
theorem c6_amended_witness :
    c6call1.1.length ≤ 16 ∧
    c6call2.1.length ≤ 16 ∧
    c6call1.1 ∈ c6call1.2.1 ∧
    (c6call2.1 ∉ c6call1.2.1 → c6call2.1 ≠ c6call1.1) :=
  c6_amended [] c6rsA c6rsBad
    (show ∀ q ∈ c6rsA, 0 ≤ q ∧ q < 1 by decide)
    (show ∀ q ∈ c6rsBad, 0 ≤ q ∧ q < 1 by decide)

/-- C7 counterexample: two entries emitted one after the other with equal
timestamps come back in reverse emission order: the stable descending
sort keeps the earlier entry first, and the final `reverse` flips the
tie. -/
theorem c7_equal_timestamps_reversed :
    c7store.logs = [⟨1, 5, "info", "first"⟩, ⟨2, 5, "info", "second"⟩] ∧
    getLogEntries c7store 100 =
      [⟨2, 5, "info", "second"⟩, ⟨1, 5, "info", "first"⟩] := by
  decide

/-- C7 amended: the store is append-only, and whenever the stored
timestamps are strictly increasing in emission order, `getLogEntries`
returns the most recent `limit` entries in emission order; entries
sharing a timestamp come back in reverse emission order. -/
theorem c7_amended (s : MemStorage) (limit : Nat)
    (h : s.logs.Pairwise (fun a b => a.timestamp < b.timestamp)) :
    getLogEntries s limit = (s.logs.reverse.take limit).reverse := by
  unfold getLogEntries
  rw [sortByTimestampDesc_sorted s.logs h]

theorem c7_amended_witness :
    getLogEntries c7storeInc 100 = (c7storeInc.logs.reverse.take 100).reverse :=
  c7_amended c7storeInc 100 (by decide)

/-- C8: if closing the session throws during stop(), the error is logged
at warn level and swallowed; teardown proceeds and every resource is
released: all three timers cleared, session handle cleared, counters and
username reset, and the allocated username removed from the held set.
(`stop` is modelled total because the source wraps every throw-site.) -/
theorem c8_stop_swallows_quit_error (s : ServiceState) (used : List String)
    (rs : List ℚ) (h : SessionHandle)
    (hb : s.bot = some h) (hr : s.config.useRandomNames = true)
    (hu : s.actualUsername ≠ "") :
    (stopSvc s used rs true).svc.bot = none ∧
    (stopSvc s used rs true).svc.reconnectTimeout = false ∧
    (stopSvc s used rs true).svc.wanderInterval = false ∧
    (stopSvc s used rs true).svc.chatInterval = false ∧
    (stopSvc s used rs true).svc.reconnectAttempts = 0 ∧
    (stopSvc s used rs true).svc.startTime = none ∧
    (stopSvc s used rs true).svc.actualUsername = "" ∧
    s.actualUsername ∉ (stopSvc s used rs true).used ∧
    (⟨Level.warn, "Error during bot shutdown: ..."⟩ : LogMsg) ∈
      (stopSvc s used rs true).logs := by
  simp [stopSvc, releaseUsername, hb, hr, hu, List.mem_filter]

theorem c8_stop_swallows_quit_error_witness :
    (stopSvc svcRand [] [] true).svc.bot = none ∧
    (stopSvc svcRand [] [] true).svc.reconnectTimeout = false ∧
    (stopSvc svcRand [] [] true).svc.wanderInterval = false ∧
    (stopSvc svcRand [] [] true).svc.chatInterval = false ∧
    (stopSvc svcRand [] [] true).svc.reconnectAttempts = 0 ∧
    (stopSvc svcRand [] [] true).svc.startTime = none ∧
    (stopSvc svcRand [] [] true).svc.actualUsername = "" ∧
    svcRand.actualUsername ∉ (stopSvc svcRand [] [] true).used ∧
    (⟨Level.warn, "Error during bot shutdown: ..."⟩ : LogMsg) ∈
      (stopSvc svcRand [] [] true).logs :=
  c8_stop_swallows_quit_error svcRand [] [] ⟨"example.com", 12345, "AlexGaming"⟩
    (by decide) (by decide) (by decide)

/-- C9: immediately after start() installs the session handle — before
any login or spawned event — `isConnected()` and `getStatus().connected`
already report true, and the registry's start route therefore rejects a
second start of a still-connecting bot as "already running": the
connected flag reflects handle existence, not an established
connection. -/
theorem c9_connected_means_handle (s : ServiceState) (used : List String)
    (rs : List ℚ) (now tnow : Nat) (hb : s.bot = none) :
    isConnected (startSvc s used rs now).svc = true ∧
    (getStatus (startSvc s used rs now).svc tnow).connected = true ∧
    (∀ (w : World) (botId k : Nat),
      lookupMap w.registry botId = some k →
      (heapGet w k).bot.isSome = true →
      (getBotConfig w.storage botId).isSome = true →
      (routeStart w botId now).2 = ⟨400, "Bot is already running"⟩) := by
  refine ⟨?_, ?_, ?_⟩
  · simp [startSvc, isConnected, hb]
  · simp [startSvc, isConnected, getStatus, hb]
  · intro w botId k hreg hconn hcfg
    obtain ⟨cfg, hc⟩ := Option.isSome_iff_exists.mp hcfg
    unfold routeStart
    rw [hc, hreg]
    simp [isConnected, hconn]

theorem c9_connected_means_handle_witness :
    isConnected (startSvc (newService cfg1) [] [] 0).svc = true ∧
    (getStatus (startSvc (newService cfg1) [] [] 0).svc 7).connected = true ∧
    (routeStart c9World 1 0).2 = ⟨400, "Bot is already running"⟩ :=
  ⟨(c9_connected_means_handle (newService cfg1) [] [] 0 7 (by decide)).1,
   (c9_connected_means_handle (newService cfg1) [] [] 0 7 (by decide)).2.1,
   (c9_connected_means_handle (newService cfg1) [] [] 0 7 (by decide)).2.2
     c9World 1 0 (by decide) (by decide) (by decide)⟩

/-- C10 counterexample: the store-wide invariant fails — `updateBotConfig`
spreads the supplied fields over the existing record with no falsy-value
defaulting, so an update with serverPort 0 leaves a stored configuration
holding 0. -/
theorem c10_update_stores_zero_port :
    (lookupMap c10store.botConfigs 1).map (fun c => c.serverPort) = some 0 := by
  decide

/-- C10 amended: `createBotConfig` itself replaces every falsy supplied
value with the built-in default (0 → 12345 / 30 / 10, "" →
"MinecraftBot"), so configurations *created by it* never hold 0 in these
numeric fields or an empty username; but `updateBotConfig` can still
store such values. -/
theorem c10_amended (s : MemStorage) (c : InsertBotConfig) :
    (createBotConfig s c).1.serverPort ≠ 0 ∧
    (createBotConfig s c).1.reconnectInterval ≠ 0 ∧
    (createBotConfig s c).1.maxReconnectAttempts ≠ 0 ∧
    (createBotConfig s c).1.username ≠ "" ∧
    (c.serverPort = some 0 → (createBotConfig s c).1.serverPort = 12345) ∧
    (c.reconnectInterval = some 0 → (createBotConfig s c).1.reconnectInterval = 30) ∧
    (c.maxReconnectAttempts = some 0 →
      (createBotConfig s c).1.maxReconnectAttempts = 10) ∧
    (c.username = some "" → (createBotConfig s c).1.username = "MinecraftBot") := by
  refine ⟨?_, ?_, ?_, ?_, ?_, ?_, ?_, ?_⟩
  · cases hv : c.serverPort with
    | none => simp [createBotConfig, jsOrInt, hv]
    | some n =>
      by_cases hn : n = 0 <;> simp [createBotConfig, jsOrInt, hv, hn]
  · cases hv : c.reconnectInterval with
    | none => simp [createBotConfig, jsOrInt, hv]
    | some n =>
      by_cases hn : n = 0 <;> simp [createBotConfig, jsOrInt, hv, hn]
  · cases hv : c.maxReconnectAttempts with
    | none => simp [createBotConfig, jsOrInt, hv]
    | some n =>
      by_cases hn : n = 0 <;> simp [createBotConfig, jsOrInt, hv, hn]
  · cases hv : c.username with
    | none => simp [createBotConfig, jsOrStr, hv]
    | some u =>
      by_cases hu : u = "" <;> simp [createBotConfig, jsOrStr, hv, hu]
  · intro hv; simp [createBotConfig, jsOrInt, hv]
  · intro hv; simp [createBotConfig, jsOrInt, hv]
  · intro hv; simp [createBotConfig, jsOrInt, hv]
  · intro hv; simp [createBotConfig, jsOrStr, hv]

theorem c10_amended_witness :
    (createBotConfig initialStorage
      { serverPort := some 0, reconnectInterval := some 0,
        maxReconnectAttempts := some 0, username := some "" }).1.serverPort = 12345 ∧
    (createBotConfig initialStorage
      { serverPort := some 0, reconnectInterval := some 0,
        maxReconnectAttempts := some 0, username := some "" }).1.username = "MinecraftBot" :=
  ⟨((c10_amended initialStorage _).2.2.2.2.1 rfl),
   ((c10_amended initialStorage _).2.2.2.2.2.2.2 rfl)⟩

end MBJ


